import Mathlib

/-!
Shallow embedding of the Tab5duino framework controller
(src/src/Tab5duino.cpp, src/Tab5duino.h) and of the LVGL integration
(src/framework/libraries/LVGL/lvgl_tab5duino.cpp,
src/framework/cores/tab5duino/hal/touch_hal.h).

External effects (RTOS task creation, timers, logging, the HAL calls whose
implementations are not part of this repository) are modelled as explicit
environment parameters and as an emitted event trace; the C global instance
becomes explicit state passing.
-/

/-- ESP-IDF status codes used by the embedded functions (esp_err_t).
`ok` is ESP_OK, `fail` is ESP_FAIL, `noMem` is ESP_ERR_NO_MEM,
`invalidArg` is ESP_ERR_INVALID_ARG, `invalidState` is ESP_ERR_INVALID_STATE,
`notSupported` is ESP_ERR_NOT_SUPPORTED, `timeout` is ESP_ERR_TIMEOUT. -/
inductive EspErr
  | ok
  | fail
  | noMem
  | invalidArg
  | invalidState
  | notSupported
  | timeout
deriving DecidableEq

/-- tab5_subsystem_state_t (Tab5duino.h): UNINITIALIZED = 0, INITIALIZING,
READY, ERROR. -/
inductive SubsystemState
  | uninitialized
  | initializing
  | ready
  | error
deriving DecidableEq

/-- tab5duino_config_t (Tab5duino.h). -/
structure TabConfig where
  auto_init_display : Bool
  auto_init_touch : Bool
  auto_init_imu : Bool
  auto_init_audio : Bool
  auto_init_lvgl : Bool
  enable_psram : Bool
  enable_usb_serial : Bool
  loop_stack_size : Nat
  loop_task_priority : Nat
  loop_task_core : Nat
deriving DecidableEq

/-- TAB5DUINO_CONFIG_DEFAULT (Tab5duino.cpp lines 21-32). -/
def TAB5DUINO_CONFIG_DEFAULT : TabConfig :=
  { auto_init_display := true
    auto_init_touch := true
    auto_init_imu := true
    auto_init_audio := false
    auto_init_lvgl := true
    enable_psram := true
    enable_usb_serial := true
    loop_stack_size := 8192
    loop_task_priority := 1
    loop_task_core := 1 }

/-- tab5duino_instance_t (Tab5duino.h).  Subsystem ids are the values of
tab5_subsystem_t: DISPLAY = 0, TOUCH = 1, IMU = 2, AUDIO = 3, POWER = 4,
USB = 5, WIFI = 6, LVGL = 7, COUNT = 8.  The FreeRTOS TaskHandle_t field is
modelled as a Bool (the code only ever compares it against NULL). -/
structure TabInstance where
  config : TabConfig
  subsystem_states : Fin 8 → SubsystemState
  loop_task_handle : Bool
  framework_initialized : Bool
  user_setup_called : Bool
  boot_time_us : Nat

/-- The all-zero tab5duino_config_t, the value every field takes after
memset(&g_tab5duino_instance, 0, ...). -/
def zeroConfig : TabConfig :=
  { auto_init_display := false
    auto_init_touch := false
    auto_init_imu := false
    auto_init_audio := false
    auto_init_lvgl := false
    enable_psram := false
    enable_usb_serial := false
    loop_stack_size := 0
    loop_task_priority := 0
    loop_task_core := 0 }

/-- The zero state of tab5duino_instance_t: what
memset(&g_tab5duino_instance, 0, sizeof(tab5duino_instance_t)) produces
(TAB5_SUBSYSTEM_UNINITIALIZED = 0, NULL handle, false booleans, 0 time),
and also the initial value of the static global (line 18). -/
def zeroInstance : TabInstance :=
  { config := zeroConfig
    subsystem_states := fun _ => SubsystemState.uninitialized
    loop_task_handle := false
    framework_initialized := false
    user_setup_called := false
    boot_time_us := 0 }

/-- Observable side effects of the controller, in program order: the
INITIALIZING entry into a subsystem bring-up switch, the READY / ERROR
outcome, the call sites of the weak user hooks (on_subsystem_error,
on_framework_init, on_framework_ready, on_lvgl_ready), and the per-subsystem
teardown dispatch of tab5duino_deinit_subsystem. -/
inductive Event
  | initAttempt (subsystem : Nat)
  | subsystemReady (subsystem : Nat)
  | subsystemError (subsystem : Nat) (e : EspErr)
  | frameworkInitHook
  | frameworkReadyHook
  | lvglReadyHook
  | deinitSub (subsystem : Nat)
deriving DecidableEq

/-- Modelled from the spec: the per-subsystem hardware bring-up results.
The switch bodies of tab5duino_init_subsystem (Tab5duino.cpp lines 248-301)
delegate to HAL init routines (display_init, touch_init, imu_init,
audio_init, power_init, usb_init, wifi_init, and the lvgl_tab5_init /
lvgl_tab5_start chain) whose implementations are not in the repository
(the calls are placeholder comments; only the HAL headers exist).  The spec
treats each bring-up as fallible (Scenario C simulates a display HAL init
failure), so the result each switch case assigns to `ret` is supplied here
as an environment function from subsystem id to status. -/
structure HalEnv where
  halResult : Fin 8 → EspErr

/-- tab5duino_init_subsystem (Tab5duino.cpp lines 233-318).
Returns the esp_err_t, the updated instance, and the emitted events. -/
def tab5duino_init_subsystem (env : HalEnv) (subsystem : Nat) (s : TabInstance) :
    EspErr × TabInstance × List Event :=
  if h : subsystem < 8 then
    let i : Fin 8 := ⟨subsystem, h⟩
    if s.subsystem_states i ≠ SubsystemState.uninitialized then
      (EspErr.ok, s, [])
    else
      let s1 : TabInstance :=
        { s with subsystem_states :=
            Function.update s.subsystem_states i SubsystemState.initializing }
      let ret : EspErr := env.halResult i
      if ret = EspErr.ok then
        (EspErr.ok,
         { s1 with subsystem_states :=
             Function.update s1.subsystem_states i SubsystemState.ready },
         [Event.initAttempt subsystem] ++
           (if subsystem = 7 then [Event.lvglReadyHook] else []) ++
           [Event.subsystemReady subsystem])
      else
        (ret,
         { s1 with subsystem_states :=
             Function.update s1.subsystem_states i SubsystemState.error },
         [Event.initAttempt subsystem, Event.subsystemError subsystem ret])
  else
    (EspErr.invalidArg, s, [])

/-- Sequencing of the early-return pattern of init_hardware_subsystems:
`if (ret != ESP_OK) return ret;` between consecutive subsystem inits. -/
def seqInit (r : EspErr × TabInstance × List Event)
    (f : TabInstance → EspErr × TabInstance × List Event) :
    EspErr × TabInstance × List Event :=
  if r.1 = EspErr.ok then
    let r2 := f r.2.1
    (r2.1, r2.2.1, r.2.2 ++ r2.2.2)
  else r

/-- A subsystem init guarded by its auto-init configuration flag. -/
def condInit (env : HalEnv) (enabled : Bool) (subsystem : Nat) (s : TabInstance) :
    EspErr × TabInstance × List Event :=
  if enabled then tab5duino_init_subsystem env subsystem s else (EspErr.ok, s, [])

/-- Tail of init_hardware_subsystems from line 215: LVGL (id 7) if enabled. -/
def initPhaseLvgl (env : HalEnv) (s : TabInstance) : EspErr × TabInstance × List Event :=
  condInit env s.config.auto_init_lvgl 7 s

/-- Tail of init_hardware_subsystems from line 211: power (id 4)
unconditionally, then LVGL. -/
def initPhasePower (env : HalEnv) (s : TabInstance) : EspErr × TabInstance × List Event :=
  seqInit (tab5duino_init_subsystem env 4 s) (initPhaseLvgl env)

/-- Tail of init_hardware_subsystems from line 205: audio (id 3) if enabled,
then power, then LVGL. -/
def initPhaseAudio (env : HalEnv) (s : TabInstance) : EspErr × TabInstance × List Event :=
  seqInit (condInit env s.config.auto_init_audio 3 s) (initPhasePower env)

/-- Tail of init_hardware_subsystems from line 200: IMU (id 2) if enabled,
then audio, power, LVGL. -/
def initPhaseImu (env : HalEnv) (s : TabInstance) : EspErr × TabInstance × List Event :=
  seqInit (condInit env s.config.auto_init_imu 2 s) (initPhaseAudio env)

/-- Tail of init_hardware_subsystems from line 195: touch (id 1) if enabled,
then IMU, audio, power, LVGL. -/
def initPhaseTouch (env : HalEnv) (s : TabInstance) : EspErr × TabInstance × List Event :=
  seqInit (condInit env s.config.auto_init_touch 1 s) (initPhaseImu env)

/-- init_hardware_subsystems (Tab5duino.cpp lines 186-221): display, touch,
IMU, audio (each if auto-enabled), power unconditionally, LVGL if enabled,
with an early `return ret` after the first failure. -/
def init_hardware_subsystems (env : HalEnv) (s : TabInstance) :
    EspErr × TabInstance × List Event :=
  seqInit (condInit env s.config.auto_init_display 0 s) (initPhaseTouch env)

/-- tab5duino_init (Tab5duino.cpp lines 45-106). `now` is the value
esp_timer_get_time() returns; PSRAM probing and USB-serial driver install
touch no instance field (their failures are log-only). -/
def tab5duino_init (env : HalEnv) (now : Nat) (cfg : Option TabConfig)
    (s : TabInstance) : EspErr × TabInstance × List Event :=
  if s.framework_initialized then
    (EspErr.ok, s, [])
  else
    let s1 : TabInstance := { s with config := cfg.getD TAB5DUINO_CONFIG_DEFAULT }
    let s2 : TabInstance := { s1 with boot_time_us := now }
    let s3 : TabInstance :=
      { s2 with subsystem_states := fun _ => SubsystemState.uninitialized }
    let r := init_hardware_subsystems env s3
    if r.1 ≠ EspErr.ok then r
    else
      (EspErr.ok, { r.2.1 with framework_initialized := true },
       r.2.2 ++ [Event.frameworkInitHook])

/-- tab5duino_start (Tab5duino.cpp lines 109-143). `taskCreateOk` is
whether xTaskCreatePinnedToCore returns pdPASS; on failure the handle
output parameter is not written, so the instance keeps its NULL handle. -/
def tab5duino_start (taskCreateOk : Bool) (s : TabInstance) :
    EspErr × TabInstance × List Event :=
  if ¬ s.framework_initialized then
    (EspErr.invalidState, s, [])
  else if s.loop_task_handle then
    (EspErr.ok, s, [])
  else if taskCreateOk then
    (EspErr.ok, { s with loop_task_handle := true }, [Event.frameworkReadyHook])
  else
    (EspErr.noMem, s, [])

/-- tab5duino_stop (Tab5duino.cpp lines 146-153): deletes the loop task if
present and nulls the handle; always ESP_OK. -/
def tab5duino_stop (s : TabInstance) : EspErr × TabInstance :=
  (EspErr.ok, { s with loop_task_handle := false })

/-- tab5duino_deinit_subsystem (Tab5duino.cpp lines 320-360).  The
per-subsystem teardown switch bodies are all empty; the state is set to
UNINITIALIZED unconditionally and ESP_OK returned. -/
def tab5duino_deinit_subsystem (subsystem : Nat) (s : TabInstance) :
    EspErr × TabInstance × List Event :=
  if h : subsystem < 8 then
    let i : Fin 8 := ⟨subsystem, h⟩
    if s.subsystem_states i = SubsystemState.uninitialized then
      (EspErr.ok, s, [])
    else
      (EspErr.ok,
       { s with subsystem_states :=
           Function.update s.subsystem_states i SubsystemState.uninitialized },
       [Event.deinitSub subsystem])
  else
    (EspErr.invalidArg, s, [])

/-- tab5duino_get_subsystem_state (Tab5duino.cpp lines 362-367). -/
def tab5duino_get_subsystem_state (subsystem : Nat) (s : TabInstance) :
    SubsystemState :=
  if h : subsystem < 8 then s.subsystem_states ⟨subsystem, h⟩
  else SubsystemState.error

/-- The loop guard of deinit_hardware_subsystems, as a Bool predicate:
`subsystem_states[i] != TAB5_SUBSYSTEM_UNINITIALIZED` (Tab5duino.cpp line 226). -/
def subsystemActive (s : TabInstance) (n : Nat) : Bool :=
  decide (tab5duino_get_subsystem_state n s ≠ SubsystemState.uninitialized)

/-- The loop body of deinit_hardware_subsystems over a list of indices:
`if (subsystem_states[i] != UNINITIALIZED) tab5duino_deinit_subsystem(i)`. -/
def deinitLoop (idxs : List Nat) (s : TabInstance) : TabInstance × List Event :=
  match idxs with
  | [] => (s, [])
  | n :: rest =>
    let step : TabInstance × List Event :=
      if tab5duino_get_subsystem_state n s ≠ SubsystemState.uninitialized then
        let r := tab5duino_deinit_subsystem n s
        (r.2.1, r.2.2)
      else (s, [])
    let r2 := deinitLoop rest step.1
    (r2.1, step.2 ++ r2.2)

/-- deinit_hardware_subsystems (Tab5duino.cpp lines 224-230):
`for (int i = TAB5_SUBSYSTEM_COUNT - 1; i >= 0; i--)`. -/
def deinit_hardware_subsystems (s : TabInstance) : TabInstance × List Event :=
  deinitLoop [7, 6, 5, 4, 3, 2, 1, 0] s

/-- tab5duino_deinit (Tab5duino.cpp lines 156-166): stop, reverse subsystem
teardown, USB-serial driver uninstall (no instance field), then
memset(&g_tab5duino_instance, 0, ...) which yields `zeroInstance`. -/
def tab5duino_deinit (s : TabInstance) : TabInstance × List Event :=
  let s1 := (tab5duino_stop s).2
  let r := deinit_hardware_subsystems s1
  (zeroInstance, r.2)

/-- The fields of struct lvgl_tab5_handle_s that lvgl_tab5_start reads:
context.initialized and started (lvgl_tab5duino.cpp lines 34-52). -/
structure LvglHandle where
  ctx_initialized : Bool
  started : Bool
deriving DecidableEq

/-- Results of the external calls made by lvgl_tab5_start:
display_hal_start, touch_hal_start, esp_timer_start_periodic, and whether
xTaskCreatePinnedToCore returns pdPASS. -/
structure LvglStartEnv where
  displayStart : EspErr
  touchStart : EspErr
  timerStart : EspErr
  taskCreateOk : Bool
deriving DecidableEq

/-- lvgl_tab5_start (lvgl_tab5duino.cpp lines 290-350).  A NULL handle and a
handle whose context is not initialized both give ESP_ERR_INVALID_STATE; an
already-started handle logs a warning and returns ESP_OK unchanged. -/
def lvgl_tab5_start (env : LvglStartEnv) (handle : Option LvglHandle) :
    EspErr × Option LvglHandle :=
  match handle with
  | none => (EspErr.invalidState, none)
  | some h =>
    if ¬ h.ctx_initialized then (EspErr.invalidState, some h)
    else if h.started then (EspErr.ok, some h)
    else if env.displayStart ≠ EspErr.ok then (env.displayStart, some h)
    else if env.touchStart ≠ EspErr.ok then (env.touchStart, some h)
    else if env.timerStart ≠ EspErr.ok then (env.timerStart, some h)
    else if ¬ env.taskCreateOk then (EspErr.noMem, some h)
    else (EspErr.ok, some { h with started := true })

/-- The fields of the LVGL handle that display_flush_cb reads:
context.display_hal (modelled as presence) and
config.enable_ppa_acceleration. -/
structure FlushCtx where
  display_hal : Bool
  enable_ppa_acceleration : Bool
deriving DecidableEq

/-- lv_area_t: the rectangular region passed to the flush callback. -/
structure LvArea where
  x1 : Nat
  y1 : Nat
  x2 : Nat
  y2 : Nat
deriving DecidableEq

/-- The calls display_flush_cb makes, in order: the accelerated
display_hal_ppa_blend, the software display_hal_draw_bitmap, and
lv_disp_flush_ready. -/
inductive FlushAction
  | ppaBlend (x y w h : Nat)
  | drawBitmap (x y w h : Nat)
  | flushReady
deriving DecidableEq

/-- display_flush_cb (lvgl_tab5duino.cpp lines 478-509).  `blendResult` is
what display_hal_ppa_blend returns when it is called (its implementation is
not in the repository).  The pixel payload is elided: the callback forwards
color_p unchanged and never inspects it. -/
def display_flush_cb (handle : Option FlushCtx) (area : LvArea)
    (blendResult : EspErr) : List FlushAction :=
  match handle with
  | none => [FlushAction.flushReady]
  | some c =>
    if ¬ c.display_hal then [FlushAction.flushReady]
    else
      let width := area.x2 - area.x1 + 1
      let height := area.y2 - area.y1 + 1
      if c.enable_ppa_acceleration then
        if blendResult ≠ EspErr.ok then
          [FlushAction.ppaBlend area.x1 area.y1 width height,
           FlushAction.drawBitmap area.x1 area.y1 width height,
           FlushAction.flushReady]
        else
          [FlushAction.ppaBlend area.x1 area.y1 width height,
           FlushAction.flushReady]
      else
        [FlushAction.drawBitmap area.x1 area.y1 width height,
         FlushAction.flushReady]

/-- touch_point_t (touch_hal.h lines 23-31). -/
structure TouchPoint where
  x : Nat
  y : Nat
  pressure : Nat
  size : Nat
  id : Nat
  is_valid : Bool
deriving DecidableEq

/-- touch_point_is_valid (touch_hal.h lines 125-127):
`point && point->is_valid && point->pressure > 0`; the non-NULL pointer
conjunct is absorbed by passing the point by value. -/
def touch_point_is_valid (p : TouchPoint) : Bool :=
  p.is_valid && decide (0 < p.pressure)

/-- lv_indev_state_t values used: LV_INDEV_STATE_PR and LV_INDEV_STATE_REL. -/
inductive IndevState
  | pressed
  | released
deriving DecidableEq

/-- The fields of lv_indev_data_t the callback writes: state and point. -/
structure IndevData where
  state : IndevState
  x : Nat
  y : Nat
deriving DecidableEq

/-- The `for (i = 0; i < point_count; i++) if (touch_point_is_valid ...)`
scan of touchpad_read_cb: the first valid point in reported order. -/
def firstValidPoint : List TouchPoint → Option TouchPoint
  | [] => none
  | p :: rest => if touch_point_is_valid p then some p else firstValidPoint rest

/-- The field of the LVGL handle that touchpad_read_cb reads:
context.touch_hal, modelled as presence. -/
structure TouchCtx where
  touch_hal : Bool
deriving DecidableEq

/-- touchpad_read_cb (lvgl_tab5duino.cpp lines 521-549).  `readResult` and
`points` are what touch_hal_read_points returns (status, filled array of
point_count entries); `data` is the lv_indev_data_t the engine passes in,
whose point field keeps its previous value on the released paths. -/
def touchpad_read_cb (handle : Option TouchCtx) (readResult : EspErr)
    (points : List TouchPoint) (data : IndevData) : IndevData :=
  match handle with
  | none => { data with state := IndevState.released }
  | some c =>
    if ¬ c.touch_hal then { data with state := IndevState.released }
    else if readResult ≠ EspErr.ok ∨ points.length = 0 then
      { data with state := IndevState.released }
    else
      match firstValidPoint points with
      | some p => { state := IndevState.pressed, x := p.x, y := p.y }
      | none => { data with state := IndevState.released }

/-- A HAL environment in which every subsystem bring-up succeeds. -/
def envAllOk : HalEnv := { halResult := fun _ => EspErr.ok }

/-- A HAL environment in which the display (id 0) bring-up fails with
ESP_FAIL and every other subsystem bring-up succeeds. -/
def envDisplayFails : HalEnv :=
  { halResult := fun i => if i = 0 then EspErr.fail else EspErr.ok }

/-- A configuration with every auto-init flag enabled. -/
def allFlagsConfig : TabConfig :=
  { auto_init_display := true
    auto_init_touch := true
    auto_init_imu := true
    auto_init_audio := true
    auto_init_lvgl := true
    enable_psram := true
    enable_usb_serial := true
    loop_stack_size := 8192
    loop_task_priority := 1
    loop_task_core := 1 }

/-- A configuration with display and touch auto-init disabled but LVGL
auto-init enabled. -/
def lvglOnlyConfig : TabConfig :=
  { auto_init_display := false
    auto_init_touch := false
    auto_init_imu := false
    auto_init_audio := false
    auto_init_lvgl := true
    enable_psram := true
    enable_usb_serial := true
    loop_stack_size := 8192
    loop_task_priority := 1
    loop_task_core := 1 }

/-- An instance that has completed tab5duino_init but not tab5duino_start. -/
def initedInstance : TabInstance :=
  { zeroInstance with framework_initialized := true }

/-- An instance that has completed init and start (loop task running). -/
def startedInstance : TabInstance :=
  { zeroInstance with framework_initialized := true, loop_task_handle := true }

/-- An instance whose touch subsystem (id 1) is READY. -/
def touchReadyInstance : TabInstance :=
  { zeroInstance with subsystem_states :=
      (Function.update zeroInstance.subsystem_states 1 SubsystemState.ready) }

lemma seqInit_err (r : EspErr × TabInstance × List Event)
    (f : TabInstance → EspErr × TabInstance × List Event) (h : r.1 ≠ EspErr.ok) :
    seqInit r f = r := by
  simp [seqInit, h]

lemma seqInit_ok (r : EspErr × TabInstance × List Event)
    (f : TabInstance → EspErr × TabInstance × List Event) (h : r.1 = EspErr.ok) :
    seqInit r f = ((f r.2.1).1, (f r.2.1).2.1, r.2.2 ++ (f r.2.1).2.2) := by
  simp [seqInit, h]

lemma condInit_true (env : HalEnv) (n : Nat) (s : TabInstance) :
    condInit env true n s = tab5duino_init_subsystem env n s := rfl

lemma init_subsystem_run_ok (env : HalEnv) (n : Nat) (h : n < 8) (s : TabInstance)
    (hs : s.subsystem_states ⟨n, h⟩ = SubsystemState.uninitialized)
    (hr : env.halResult ⟨n, h⟩ = EspErr.ok) :
    tab5duino_init_subsystem env n s =
      (EspErr.ok,
       { s with subsystem_states :=
           (Function.update s.subsystem_states ⟨n, h⟩ SubsystemState.ready) },
       [Event.initAttempt n] ++ (if n = 7 then [Event.lvglReadyHook] else []) ++
         [Event.subsystemReady n]) := by
  simp only [tab5duino_init_subsystem, dif_pos h, if_neg (not_not_intro hs), if_pos hr]
  simp [Function.update_idem]

lemma init_subsystem_run_fail (env : HalEnv) (n : Nat) (h : n < 8) (s : TabInstance)
    (hs : s.subsystem_states ⟨n, h⟩ = SubsystemState.uninitialized)
    (hr : env.halResult ⟨n, h⟩ ≠ EspErr.ok) :
    tab5duino_init_subsystem env n s =
      (env.halResult ⟨n, h⟩,
       { s with subsystem_states :=
           (Function.update s.subsystem_states ⟨n, h⟩ SubsystemState.error) },
       [Event.initAttempt n, Event.subsystemError n (env.halResult ⟨n, h⟩)]) := by
  simp only [tab5duino_init_subsystem, dif_pos h, if_neg (not_not_intro hs), if_neg hr]
  simp [Function.update_idem]

lemma init_subsystem_skip (env : HalEnv) (n : Nat) (h : n < 8) (s : TabInstance)
    (hs : s.subsystem_states ⟨n, h⟩ ≠ SubsystemState.uninitialized) :
    tab5duino_init_subsystem env n s = (EspErr.ok, s, []) := by
  simp only [tab5duino_init_subsystem, dif_pos h, if_pos hs]

lemma init_subsystem_invalid (env : HalEnv) (n : Nat) (h : ¬ n < 8) (s : TabInstance) :
    tab5duino_init_subsystem env n s = (EspErr.invalidArg, s, []) := by
  simp only [tab5duino_init_subsystem, dif_neg h]

lemma init_subsystem_preserves (env : HalEnv) (n : Nat) (s : TabInstance) (m : Fin 8)
    (hm : (m : Nat) ≠ n) :
    (tab5duino_init_subsystem env n s).2.1.subsystem_states m = s.subsystem_states m := by
  by_cases h1 : n < 8
  · have hne : m ≠ (⟨n, h1⟩ : Fin 8) := fun he => hm (congrArg Fin.val he)
    by_cases h2 : s.subsystem_states ⟨n, h1⟩ = SubsystemState.uninitialized
    · by_cases h3 : env.halResult ⟨n, h1⟩ = EspErr.ok
      · rw [init_subsystem_run_ok env n h1 s h2 h3]
        simp [Function.update_noteq hne]
      · rw [init_subsystem_run_fail env n h1 s h2 h3]
        simp [Function.update_noteq hne]
    · rw [init_subsystem_skip env n h1 s h2]
  · rw [init_subsystem_invalid env n h1 s]

lemma condInit_preserves (env : HalEnv) (b : Bool) (n : Nat) (s : TabInstance) (m : Fin 8)
    (hm : (m : Nat) ≠ n) :
    (condInit env b n s).2.1.subsystem_states m = s.subsystem_states m := by
  unfold condInit
  split_ifs
  · exact init_subsystem_preserves env n s m hm
  · rfl

lemma seqInit_state (r : EspErr × TabInstance × List Event)
    (f : TabInstance → EspErr × TabInstance × List Event) :
    (seqInit r f).2.1 = if r.1 = EspErr.ok then (f r.2.1).2.1 else r.2.1 := by
  unfold seqInit
  split_ifs <;> rfl

lemma initPhaseLvgl_preserves (env : HalEnv) (s : TabInstance) (m : Fin 8)
    (h7 : (m : Nat) ≠ 7) :
    (initPhaseLvgl env s).2.1.subsystem_states m = s.subsystem_states m :=
  condInit_preserves env _ 7 s m h7

lemma initPhasePower_preserves (env : HalEnv) (s : TabInstance) (m : Fin 8)
    (h4 : (m : Nat) ≠ 4) (h7 : (m : Nat) ≠ 7) :
    (initPhasePower env s).2.1.subsystem_states m = s.subsystem_states m := by
  unfold initPhasePower
  rw [seqInit_state]
  split_ifs
  · rw [initPhaseLvgl_preserves env _ m h7, init_subsystem_preserves env 4 s m h4]
  · exact init_subsystem_preserves env 4 s m h4

lemma initPhaseAudio_preserves (env : HalEnv) (s : TabInstance) (m : Fin 8)
    (h3 : (m : Nat) ≠ 3) (h4 : (m : Nat) ≠ 4) (h7 : (m : Nat) ≠ 7) :
    (initPhaseAudio env s).2.1.subsystem_states m = s.subsystem_states m := by
  unfold initPhaseAudio
  rw [seqInit_state]
  split_ifs
  · rw [initPhasePower_preserves env _ m h4 h7, condInit_preserves env _ 3 s m h3]
  · exact condInit_preserves env _ 3 s m h3

lemma initPhaseImu_preserves (env : HalEnv) (s : TabInstance) (m : Fin 8)
    (h2 : (m : Nat) ≠ 2) (h3 : (m : Nat) ≠ 3) (h4 : (m : Nat) ≠ 4) (h7 : (m : Nat) ≠ 7) :
    (initPhaseImu env s).2.1.subsystem_states m = s.subsystem_states m := by
  unfold initPhaseImu
  rw [seqInit_state]
  split_ifs
  · rw [initPhaseAudio_preserves env _ m h3 h4 h7, condInit_preserves env _ 2 s m h2]
  · exact condInit_preserves env _ 2 s m h2

lemma ite_wrap_fail (r : EspErr × TabInstance × List Event) (h : r.1 ≠ EspErr.ok) :
    (if r.1 ≠ EspErr.ok then r
     else (EspErr.ok, { r.2.1 with framework_initialized := true },
           r.2.2 ++ [Event.frameworkInitHook])) = r := if_pos h

lemma ite_wrap_states (r : EspErr × TabInstance × List Event) (m : Fin 8) :
    (if r.1 ≠ EspErr.ok then r
     else (EspErr.ok, { r.2.1 with framework_initialized := true },
           r.2.2 ++ [Event.frameworkInitHook])).2.1.subsystem_states m
      = r.2.1.subsystem_states m := by
  split_ifs <;> rfl

lemma tab5duino_init_fresh (env : HalEnv) (now : Nat) (cfg : TabConfig) (s : TabInstance)
    (hfw : s.framework_initialized = false) :
    tab5duino_init env now (some cfg) s =
      (if (init_hardware_subsystems env
            { s with
              config := cfg
              boot_time_us := now
              subsystem_states := fun _ => SubsystemState.uninitialized }).1 ≠ EspErr.ok then
        init_hardware_subsystems env
          { s with
            config := cfg
            boot_time_us := now
            subsystem_states := fun _ => SubsystemState.uninitialized }
       else
        (EspErr.ok,
         { (init_hardware_subsystems env
              { s with
                config := cfg
                boot_time_us := now
                subsystem_states := fun _ => SubsystemState.uninitialized }).2.1 with
           framework_initialized := true },
         (init_hardware_subsystems env
            { s with
              config := cfg
              boot_time_us := now
              subsystem_states := fun _ => SubsystemState.uninitialized }).2.2 ++
           [Event.frameworkInitHook])) := by
  simp [tab5duino_init, hfw]

lemma tab5duino_init_states (env : HalEnv) (now : Nat) (cfg : TabConfig) (s : TabInstance)
    (hfw : s.framework_initialized = false) (m : Fin 8) :
    (tab5duino_init env now (some cfg) s).2.1.subsystem_states m =
      (init_hardware_subsystems env
        { s with
          config := cfg
          boot_time_us := now
          subsystem_states := fun _ => SubsystemState.uninitialized }).2.1.subsystem_states m := by
  rw [tab5duino_init_fresh env now cfg s hfw]
  exact ite_wrap_states _ m

lemma init_hw_display_fail (env : HalEnv) (s : TabInstance)
    (hd : s.config.auto_init_display = true)
    (hs : s.subsystem_states 0 = SubsystemState.uninitialized)
    (he : env.halResult 0 ≠ EspErr.ok) :
    init_hardware_subsystems env s =
      (env.halResult 0,
       { s with subsystem_states :=
           (Function.update s.subsystem_states 0 SubsystemState.error) },
       [Event.initAttempt 0, Event.subsystemError 0 (env.halResult 0)]) := by
  unfold init_hardware_subsystems
  rw [hd, condInit_true, init_subsystem_run_fail env 0 (by decide) s hs he]
  exact seqInit_err _ _ he

lemma init_hw_states_display_ok (env : HalEnv) (s : TabInstance)
    (hd : s.config.auto_init_display = true)
    (h0 : s.subsystem_states 0 = SubsystemState.uninitialized)
    (he : env.halResult 0 = EspErr.ok) :
    (init_hardware_subsystems env s).2.1 =
      (initPhaseTouch env
        { s with subsystem_states :=
            (Function.update s.subsystem_states 0 SubsystemState.ready) }).2.1 := by
  unfold init_hardware_subsystems
  rw [hd, condInit_true, init_subsystem_run_ok env 0 (by decide) s h0 he, seqInit_ok _ _ rfl]
  rfl

lemma initPhaseTouch_run_ok (env : HalEnv) (s : TabInstance)
    (h1 : s.subsystem_states 1 = SubsystemState.uninitialized)
    (ht : s.config.auto_init_touch = true)
    (he : env.halResult 1 = EspErr.ok) :
    (initPhaseTouch env s).2.1 =
      (initPhaseImu env
        { s with subsystem_states :=
            (Function.update s.subsystem_states 1 SubsystemState.ready) }).2.1 := by
  unfold initPhaseTouch
  rw [ht, condInit_true, init_subsystem_run_ok env 1 (by decide) s h1 he, seqInit_ok _ _ rfl]
  rfl

lemma initPhaseTouch_run_fail (env : HalEnv) (s : TabInstance)
    (h1 : s.subsystem_states 1 = SubsystemState.uninitialized)
    (ht : s.config.auto_init_touch = true)
    (he : env.halResult 1 ≠ EspErr.ok) :
    (initPhaseTouch env s).2.1 =
      { s with subsystem_states :=
          (Function.update s.subsystem_states 1 SubsystemState.error) } := by
  unfold initPhaseTouch
  rw [ht, condInit_true, init_subsystem_run_fail env 1 (by decide) s h1 he,
    seqInit_err _ _ he]
  rfl

lemma init_hw_lvgl_prereqs (env : HalEnv) (s : TabInstance)
    (h0 : s.subsystem_states 0 = SubsystemState.uninitialized)
    (h1 : s.subsystem_states 1 = SubsystemState.uninitialized)
    (h7 : s.subsystem_states 7 = SubsystemState.uninitialized)
    (hd : s.config.auto_init_display = true)
    (ht : s.config.auto_init_touch = true)
    (hlv : (init_hardware_subsystems env s).2.1.subsystem_states 7
      = SubsystemState.ready) :
    (init_hardware_subsystems env s).2.1.subsystem_states 0
        = SubsystemState.ready ∧
    (init_hardware_subsystems env s).2.1.subsystem_states 1
        = SubsystemState.ready := by
  by_cases he0 : env.halResult 0 = EspErr.ok
  · have st1 := init_hw_states_display_ok env s hd h0 he0
    by_cases he1 : env.halResult 1 = EspErr.ok
    · have st2 := initPhaseTouch_run_ok env
        { s with subsystem_states :=
            (Function.update s.subsystem_states 0 SubsystemState.ready) }
        (by simp +decide [Function.update, h1]) ht he1
      rw [st1, st2]
      constructor
      · rw [initPhaseImu_preserves env _ _ (by decide) (by decide) (by decide) (by decide)]
        simp +decide [Function.update]
      · rw [initPhaseImu_preserves env _ _ (by decide) (by decide) (by decide) (by decide)]
        simp +decide [Function.update]
    · have st2 := initPhaseTouch_run_fail env
        { s with subsystem_states :=
            (Function.update s.subsystem_states 0 SubsystemState.ready) }
        (by simp +decide [Function.update, h1]) ht he1
      rw [st1, st2] at hlv
      simp +decide [Function.update, h7] at hlv
  · rw [init_hw_display_fail env s hd h0 he0] at hlv
    simp +decide [Function.update, h7] at hlv

lemma deinit_subsystem_noop (n : Nat) (h : n < 8) (s : TabInstance)
    (hs : s.subsystem_states ⟨n, h⟩ = SubsystemState.uninitialized) :
    tab5duino_deinit_subsystem n s = (EspErr.ok, s, []) := by
  simp only [tab5duino_deinit_subsystem, dif_pos h, if_pos hs]

lemma deinit_subsystem_active (n : Nat) (h : n < 8) (s : TabInstance)
    (hs : s.subsystem_states ⟨n, h⟩ ≠ SubsystemState.uninitialized) :
    tab5duino_deinit_subsystem n s =
      (EspErr.ok,
       { s with subsystem_states :=
           (Function.update s.subsystem_states ⟨n, h⟩ SubsystemState.uninitialized) },
       [Event.deinitSub n]) := by
  simp only [tab5duino_deinit_subsystem, dif_pos h, if_neg hs]

lemma deinit_subsystem_invalid (n : Nat) (h : ¬ n < 8) (s : TabInstance) :
    tab5duino_deinit_subsystem n s = (EspErr.invalidArg, s, []) := by
  simp only [tab5duino_deinit_subsystem, dif_neg h]

lemma get_state_deinit_other (n : Nat) (s : TabInstance) (m : Nat) (hm : m ≠ n) :
    tab5duino_get_subsystem_state m (tab5duino_deinit_subsystem n s).2.1
      = tab5duino_get_subsystem_state m s := by
  by_cases h : n < 8
  · by_cases hs : s.subsystem_states ⟨n, h⟩ = SubsystemState.uninitialized
    · rw [deinit_subsystem_noop n h s hs]
    · rw [deinit_subsystem_active n h s hs]
      by_cases hm8 : m < 8
      · simp only [tab5duino_get_subsystem_state, dif_pos hm8]
        have hne : (⟨m, hm8⟩ : Fin 8) ≠ ⟨n, h⟩ := fun he => hm (congrArg Fin.val he)
        simp [Function.update_noteq hne]
      · simp only [tab5duino_get_subsystem_state, dif_neg hm8]
  · rw [deinit_subsystem_invalid n h s]

lemma deinitLoop_cons_active (n : Nat) (rest : List Nat) (s : TabInstance)
    (hc : tab5duino_get_subsystem_state n s ≠ SubsystemState.uninitialized) :
    deinitLoop (n :: rest) s =
      ((deinitLoop rest (tab5duino_deinit_subsystem n s).2.1).1,
       (tab5duino_deinit_subsystem n s).2.2 ++
         (deinitLoop rest (tab5duino_deinit_subsystem n s).2.1).2) := by
  simp only [deinitLoop, if_pos hc]

lemma deinitLoop_cons_skip (n : Nat) (rest : List Nat) (s : TabInstance)
    (hc : ¬ tab5duino_get_subsystem_state n s ≠ SubsystemState.uninitialized) :
    deinitLoop (n :: rest) s = deinitLoop rest s := by
  simp only [deinitLoop, if_neg hc]
  rfl

lemma deinitLoop_trace (idxs : List Nat) (s : TabInstance)
    (h8 : ∀ n ∈ idxs, n < 8) (hnd : idxs.Nodup) :
    (deinitLoop idxs s).2 = (idxs.filter (subsystemActive s)).map Event.deinitSub := by
  induction idxs generalizing s with
  | nil => rfl
  | cons n rest ih =>
    have hn8 : n < 8 := h8 n (List.mem_cons_self n rest)
    have hni : n ∉ rest := (List.nodup_cons.mp hnd).1
    have hrest : rest.Nodup := (List.nodup_cons.mp hnd).2
    have h8r : ∀ m ∈ rest, m < 8 := fun m hm => h8 m (List.mem_cons_of_mem n hm)
    by_cases hc : tab5duino_get_subsystem_state n s ≠ SubsystemState.uninitialized
    · rw [deinitLoop_cons_active n rest s hc]
      have hs' : s.subsystem_states ⟨n, hn8⟩ ≠ SubsystemState.uninitialized := by
        simpa only [tab5duino_get_subsystem_state, dif_pos hn8] using hc
      have hpos : subsystemActive s n = true := decide_eq_true hc
      have hcong : ∀ m ∈ rest,
          subsystemActive (tab5duino_deinit_subsystem n s).2.1 m = subsystemActive s m :=
        fun m hm => by
          unfold subsystemActive
          rw [get_state_deinit_other n s m (fun he => hni (he ▸ hm))]
      rw [List.filter_cons_of_pos hpos, List.map_cons,
        ih (tab5duino_deinit_subsystem n s).2.1 h8r hrest, List.filter_congr hcong,
        deinit_subsystem_active n hn8 s hs']
      rfl
    · have hneg : ¬ subsystemActive s n = true := by
        simpa [subsystemActive] using hc
      rw [deinitLoop_cons_skip n rest s hc, ih s h8r hrest,
        List.filter_cons_of_neg hneg]

lemma touchpad_read_cb_some (c : TouchCtx) (readResult : EspErr)
    (points : List TouchPoint) (data : IndevData) :
    touchpad_read_cb (some c) readResult points data =
      (if ¬ c.touch_hal then { data with state := IndevState.released }
       else if readResult ≠ EspErr.ok ∨ points.length = 0 then
         { data with state := IndevState.released }
       else
         match firstValidPoint points with
         | some p => { state := IndevState.pressed, x := p.x, y := p.y }
         | none => { data with state := IndevState.released }) := rfl

/-- Claim C1 counterexample: with every auto-init flag enabled and the display
bring-up failing (ESP_FAIL), tab5duino_init records DISPLAY as ERROR and the
error-hook call site fires, but touch (id 1), IMU (id 2) and power (id 4) are
never attempted and remain UNINITIALIZED — refuting the claim that the
remaining bring-up sequence still runs. -/
theorem C1_counterexample :
    (tab5duino_init envDisplayFails 0 (some allFlagsConfig) zeroInstance).2.1.subsystem_states 0
        = SubsystemState.error ∧
    Event.subsystemError 0 EspErr.fail
        ∈ (tab5duino_init envDisplayFails 0 (some allFlagsConfig) zeroInstance).2.2 ∧
    (tab5duino_init envDisplayFails 0 (some allFlagsConfig) zeroInstance).2.1.subsystem_states 1
        = SubsystemState.uninitialized ∧
    (tab5duino_init envDisplayFails 0 (some allFlagsConfig) zeroInstance).2.1.subsystem_states 2
        = SubsystemState.uninitialized ∧
    (tab5duino_init envDisplayFails 0 (some allFlagsConfig) zeroInstance).2.1.subsystem_states 4
        = SubsystemState.uninitialized ∧
    Event.initAttempt 1
        ∉ (tab5duino_init envDisplayFails 0 (some allFlagsConfig) zeroInstance).2.2 ∧
    Event.initAttempt 2
        ∉ (tab5duino_init envDisplayFails 0 (some allFlagsConfig) zeroInstance).2.2 ∧
    Event.initAttempt 4
        ∉ (tab5duino_init envDisplayFails 0 (some allFlagsConfig) zeroInstance).2.2 := by
  decide

/-- Claim C1 (amended): during controller init, a HAL-level failure of the
display bring-up is recorded as the DISPLAY subsystem ERROR state and
reported via the error hook, but it DOES abort the remaining bring-up:
init_hardware_subsystems returns the failure immediately, tab5duino_init
propagates it, and the touch, IMU and power subsystems are not attempted
and remain UNINITIALIZED. -/
theorem C1_amended (env : HalEnv) (now : Nat) (cfg : TabConfig) (s : TabInstance)
    (hfw : s.framework_initialized = false)
    (hd : cfg.auto_init_display = true)
    (he : env.halResult 0 ≠ EspErr.ok) :
    (tab5duino_init env now (some cfg) s).1 = env.halResult 0 ∧
    (tab5duino_init env now (some cfg) s).2.1.subsystem_states 0 = SubsystemState.error ∧
    Event.subsystemError 0 (env.halResult 0) ∈ (tab5duino_init env now (some cfg) s).2.2 ∧
    (tab5duino_init env now (some cfg) s).2.1.subsystem_states 1
      = SubsystemState.uninitialized ∧
    (tab5duino_init env now (some cfg) s).2.1.subsystem_states 2
      = SubsystemState.uninitialized ∧
    (tab5duino_init env now (some cfg) s).2.1.subsystem_states 4
      = SubsystemState.uninitialized ∧
    Event.initAttempt 1 ∉ (tab5duino_init env now (some cfg) s).2.2 ∧
    Event.initAttempt 2 ∉ (tab5duino_init env now (some cfg) s).2.2 ∧
    Event.initAttempt 4 ∉ (tab5duino_init env now (some cfg) s).2.2 := by
  have key : tab5duino_init env now (some cfg) s =
      (env.halResult 0,
       { s with
         config := cfg
         boot_time_us := now
         subsystem_states :=
           (Function.update (fun _ => SubsystemState.uninitialized) (0 : Fin 8)
             SubsystemState.error) },
       [Event.initAttempt 0, Event.subsystemError 0 (env.halResult 0)]) := by
    rw [tab5duino_init_fresh env now cfg s hfw,
      init_hw_display_fail env _ hd rfl he, ite_wrap_fail _ he]
  rw [key]
  refine ⟨rfl, rfl, by simp, rfl, rfl, rfl, by simp, by simp, by simp⟩

/-- Claim C1 witness: the amended theorem applied at the all-flags default-like
configuration, the display-fails HAL environment, and the zero instance. -/
theorem C1_witness :
    (tab5duino_init envDisplayFails 0 (some allFlagsConfig) zeroInstance).1
        = envDisplayFails.halResult 0 ∧
    (tab5duino_init envDisplayFails 0 (some allFlagsConfig) zeroInstance).2.1.subsystem_states 0
        = SubsystemState.error ∧
    Event.subsystemError 0 (envDisplayFails.halResult 0)
        ∈ (tab5duino_init envDisplayFails 0 (some allFlagsConfig) zeroInstance).2.2 ∧
    (tab5duino_init envDisplayFails 0 (some allFlagsConfig) zeroInstance).2.1.subsystem_states 1
        = SubsystemState.uninitialized ∧
    (tab5duino_init envDisplayFails 0 (some allFlagsConfig) zeroInstance).2.1.subsystem_states 2
        = SubsystemState.uninitialized ∧
    (tab5duino_init envDisplayFails 0 (some allFlagsConfig) zeroInstance).2.1.subsystem_states 4
        = SubsystemState.uninitialized ∧
    Event.initAttempt 1
        ∉ (tab5duino_init envDisplayFails 0 (some allFlagsConfig) zeroInstance).2.2 ∧
    Event.initAttempt 2
        ∉ (tab5duino_init envDisplayFails 0 (some allFlagsConfig) zeroInstance).2.2 ∧
    Event.initAttempt 4
        ∉ (tab5duino_init envDisplayFails 0 (some allFlagsConfig) zeroInstance).2.2 :=
  C1_amended envDisplayFails 0 allFlagsConfig zeroInstance rfl rfl (by decide)

/-- Claim C2 counterexample: with auto_init_display and auto_init_touch off but
auto_init_lvgl on, tab5duino_init attempts the LVGL subsystem anyway and it
reaches READY while display and touch are still UNINITIALIZED — refuting the
claim for every configuration. -/
theorem C2_counterexample :
    (tab5duino_init envAllOk 0 (some lvglOnlyConfig) zeroInstance).2.1.subsystem_states 7
        = SubsystemState.ready ∧
    (tab5duino_init envAllOk 0 (some lvglOnlyConfig) zeroInstance).2.1.subsystem_states 0
        = SubsystemState.uninitialized ∧
    (tab5duino_init envAllOk 0 (some lvglOnlyConfig) zeroInstance).2.1.subsystem_states 1
        = SubsystemState.uninitialized ∧
    Event.initAttempt 7
        ∈ (tab5duino_init envAllOk 0 (some lvglOnlyConfig) zeroInstance).2.2 ∧
    Event.initAttempt 0
        ∉ (tab5duino_init envAllOk 0 (some lvglOnlyConfig) zeroInstance).2.2 ∧
    Event.initAttempt 1
        ∉ (tab5duino_init envAllOk 0 (some lvglOnlyConfig) zeroInstance).2.2 := by
  decide

/-- Claim C2 (amended): for configurations with the display and touch auto-init
flags enabled, in any init run from a non-initialized instance, if the LVGL
subsystem ends READY then display and touch have each ended READY or ERROR
(indeed READY, since an ERROR aborts the sequence before LVGL is attempted).
With either flag disabled the prerequisite is not enforced (see the
counterexample). -/
theorem C2_amended (env : HalEnv) (now : Nat) (cfg : TabConfig) (s : TabInstance)
    (hfw : s.framework_initialized = false)
    (hd : cfg.auto_init_display = true)
    (ht : cfg.auto_init_touch = true)
    (hlv : (tab5duino_init env now (some cfg) s).2.1.subsystem_states 7
      = SubsystemState.ready) :
    ((tab5duino_init env now (some cfg) s).2.1.subsystem_states 0 = SubsystemState.ready ∨
     (tab5duino_init env now (some cfg) s).2.1.subsystem_states 0 = SubsystemState.error) ∧
    ((tab5duino_init env now (some cfg) s).2.1.subsystem_states 1 = SubsystemState.ready ∨
     (tab5duino_init env now (some cfg) s).2.1.subsystem_states 1 = SubsystemState.error) := by
  rw [tab5duino_init_states env now cfg s hfw 7] at hlv
  rw [tab5duino_init_states env now cfg s hfw 0, tab5duino_init_states env now cfg s hfw 1]
  have h := init_hw_lvgl_prereqs env _ rfl rfl rfl hd ht hlv
  exact ⟨Or.inl h.1, Or.inl h.2⟩

/-- Claim C2 witness: the amended theorem applied at the all-ok HAL environment,
the all-flags configuration, and the zero instance. -/
theorem C2_witness :
    ((tab5duino_init envAllOk 0 (some allFlagsConfig) zeroInstance).2.1.subsystem_states 0
        = SubsystemState.ready ∨
     (tab5duino_init envAllOk 0 (some allFlagsConfig) zeroInstance).2.1.subsystem_states 0
        = SubsystemState.error) ∧
    ((tab5duino_init envAllOk 0 (some allFlagsConfig) zeroInstance).2.1.subsystem_states 1
        = SubsystemState.ready ∨
     (tab5duino_init envAllOk 0 (some allFlagsConfig) zeroInstance).2.1.subsystem_states 1
        = SubsystemState.error) :=
  C2_amended envAllOk 0 allFlagsConfig zeroInstance rfl rfl rfl (by decide)

/-- Claim C3: tab5duino_init is idempotent — if the framework is already
initialized, a second call returns ESP_OK and leaves the instance
(configuration, subsystem states, boot timestamp, task handle) unchanged,
emitting no events (no hooks, no subsystem work). -/
theorem C3_init_idempotent (env : HalEnv) (now : Nat) (cfg : Option TabConfig)
    (s : TabInstance) (h : s.framework_initialized = true) :
    tab5duino_init env now cfg s = (EspErr.ok, s, []) := by
  simp [tab5duino_init, h]

/-- Claim C3 witness: the theorem applied at an already-initialized instance. -/
theorem C3_witness :
    tab5duino_init envAllOk 5 none initedInstance = (EspErr.ok, initedInstance, []) :=
  C3_init_idempotent envAllOk 5 none initedInstance rfl

/-- Claim C4: tab5duino_deinit resets the instance to its zero state (every
subsystem UNINITIALIZED, every field its zero value), and the subsystems it
tears down are exactly those not already UNINITIALIZED, dispatched in the
reverse of ascending subsystem-id order (the init order), from the highest
id down to display. -/
theorem C4_deinit_reverse_teardown (s : TabInstance) :
    (tab5duino_deinit s).1 = zeroInstance ∧
    (∀ i : Fin 8, (tab5duino_deinit s).1.subsystem_states i = SubsystemState.uninitialized) ∧
    (tab5duino_deinit s).2 =
      ((List.range 8).reverse.filter (subsystemActive s)).map Event.deinitSub := by
  refine ⟨rfl, fun i => rfl, ?_⟩
  rw [show (List.range 8).reverse = [7, 6, 5, 4, 3, 2, 1, 0] from by decide]
  exact deinitLoop_trace [7, 6, 5, 4, 3, 2, 1, 0] (tab5duino_stop s).2
    (by decide) (by decide)

/-- Claim C5: every invocation of display_flush_cb sends lv_disp_flush_ready
back to the engine exactly once — whether the handle or display HAL is
missing, acceleration is disabled, the accelerated blend succeeds, or it
fails and the software bitmap fallback is used. -/
theorem C5_flush_ready_exactly_once (handle : Option FlushCtx) (area : LvArea)
    (blendResult : EspErr) :
    (display_flush_cb handle area blendResult).count FlushAction.flushReady = 1 := by
  rcases handle with _ | ⟨hal, ppa⟩
  · rfl
  · by_cases hb : blendResult = EspErr.ok
    · subst hb
      cases hal <;> cases ppa <;> rfl
    · cases hal <;> cases ppa <;>
        simp [display_flush_cb, hb, List.count_cons, List.count_nil]

/-- Claim C6: touchpad_read_cb reports released when the touch HAL returns an
error or zero points, reports released when no reported point is valid
(valid iff the validity flag is set and the pressure is non-zero), and
otherwise reports pressed at the coordinates of the first valid point in
reported order (firstValidPoint coincides with List.find? over the validity
predicate). -/
theorem C6_touchpad_read_spec (c : TouchCtx) (readResult : EspErr)
    (points : List TouchPoint) (data : IndevData) (hhal : c.touch_hal = true) :
    ((readResult ≠ EspErr.ok ∨ points = []) →
      touchpad_read_cb (some c) readResult points data
        = { data with state := IndevState.released }) ∧
    (firstValidPoint points = none →
      (touchpad_read_cb (some c) readResult points data).state = IndevState.released) ∧
    (∀ p, readResult = EspErr.ok → firstValidPoint points = some p →
      touchpad_read_cb (some c) readResult points data
        = { state := IndevState.pressed, x := p.x, y := p.y }) ∧
    (∀ p : TouchPoint,
      (touch_point_is_valid p = true ↔ p.is_valid = true ∧ p.pressure ≠ 0)) ∧
    (∀ ps : List TouchPoint, firstValidPoint ps = ps.find? touch_point_is_valid) := by
  refine ⟨?_, ?_, ?_, ?_, ?_⟩
  · intro h
    have hcond : readResult ≠ EspErr.ok ∨ points.length = 0 :=
      h.imp (fun x => x) (fun hp => by simp [hp])
    rw [touchpad_read_cb_some, if_neg (by simp [hhal]), if_pos hcond]
  · intro h
    by_cases hcond : readResult ≠ EspErr.ok ∨ points.length = 0
    · rw [touchpad_read_cb_some, if_neg (by simp [hhal]), if_pos hcond]
    · rw [touchpad_read_cb_some, if_neg (by simp [hhal]), if_neg hcond, h]
  · intro p hok hfind
    have hlen : ¬ points.length = 0 := by
      intro hl
      rw [List.length_eq_zero.mp hl] at hfind
      simp [firstValidPoint] at hfind
    rw [touchpad_read_cb_some, if_neg (by simp [hhal]), if_neg (by simp [hok, hlen]),
      hfind]
  · intro p
    unfold touch_point_is_valid
    simp [Nat.pos_iff_ne_zero]
  · intro ps
    induction ps with
    | nil => rfl
    | cons p rest ih =>
      by_cases h : touch_point_is_valid p
      · simp [firstValidPoint, List.find?_cons_of_pos, h]
      · simp only [firstValidPoint, if_neg h, List.find?_cons_of_neg _ (by simpa using h)]
        exact ih

/-- Claim C6 witness: the theorem applied to a single valid point with
pressure 5 at (10, 20). -/
theorem C6_witness :
    touchpad_read_cb (some { touch_hal := true }) EspErr.ok
        [{ x := 10, y := 20, pressure := 5, size := 1, id := 0, is_valid := true }]
        { state := IndevState.released, x := 0, y := 0 }
      = { state := IndevState.pressed, x := 10, y := 20 } :=
  (C6_touchpad_read_spec { touch_hal := true } EspErr.ok
      [{ x := 10, y := 20, pressure := 5, size := 1, id := 0, is_valid := true }]
      { state := IndevState.released, x := 0, y := 0 } rfl).2.2.1
    { x := 10, y := 20, pressure := 5, size := 1, id := 0, is_valid := true } rfl rfl

/-- Claim C7: tab5duino_start returns ESP_ERR_INVALID_STATE if init has not
completed; returns ESP_OK without creating a second task if the loop task
already exists; and returns ESP_ERR_NO_MEM with the task handle still null
if task creation fails. -/
theorem C7_start_spec (taskCreateOk : Bool) (s : TabInstance) :
    (s.framework_initialized = false →
      tab5duino_start taskCreateOk s = (EspErr.invalidState, s, [])) ∧
    (s.framework_initialized = true → s.loop_task_handle = true →
      tab5duino_start taskCreateOk s = (EspErr.ok, s, [])) ∧
    (s.framework_initialized = true → s.loop_task_handle = false → taskCreateOk = false →
      tab5duino_start taskCreateOk s = (EspErr.noMem, s, []) ∧
      (tab5duino_start taskCreateOk s).2.1.loop_task_handle = false) := by
  refine ⟨?_, ?_, ?_⟩ <;> intros <;> simp_all [tab5duino_start]

/-- Claim C7 witness: the three scenarios at the zero, started, and inited
instances. -/
theorem C7_witness :
    tab5duino_start true zeroInstance = (EspErr.invalidState, zeroInstance, []) ∧
    tab5duino_start true startedInstance = (EspErr.ok, startedInstance, []) ∧
    tab5duino_start false initedInstance = (EspErr.noMem, initedInstance, []) :=
  ⟨(C7_start_spec true zeroInstance).1 rfl,
   (C7_start_spec true startedInstance).2.1 rfl rfl,
   ((C7_start_spec false initedInstance).2.2 rfl rfl rfl).1⟩

/-- Claim C8 counterexample: lvgl_tab5_start on an initialized, already-started
handle returns ESP_OK (an idempotent no-op), not ESP_ERR_INVALID_STATE —
refuting the claim that an already-started handle fails with InvalidState. -/
theorem C8_counterexample :
    lvgl_tab5_start
        { displayStart := EspErr.ok, touchStart := EspErr.ok, timerStart := EspErr.ok,
          taskCreateOk := true }
        (some { ctx_initialized := true, started := true })
      = (EspErr.ok, some { ctx_initialized := true, started := true }) ∧
    EspErr.ok ≠ EspErr.invalidState := by
  decide

/-- Claim C8 (amended): lvgl_tab5_start fails with ESP_ERR_INVALID_STATE when
the handle is NULL or its context is not initialized, and returns ESP_OK
leaving the handle unchanged when it is already started. -/
theorem C8_amended (env : LvglStartEnv) (handle : Option LvglHandle) :
    (handle = none → lvgl_tab5_start env handle = (EspErr.invalidState, none)) ∧
    (∀ h, handle = some h → h.ctx_initialized = false →
      lvgl_tab5_start env handle = (EspErr.invalidState, some h)) ∧
    (∀ h, handle = some h → h.ctx_initialized = true → h.started = true →
      lvgl_tab5_start env handle = (EspErr.ok, some h)) := by
  refine ⟨?_, ?_, ?_⟩
  · rintro rfl
    rfl
  · rintro h rfl hinit
    simp [lvgl_tab5_start, hinit]
  · rintro h rfl hinit hstarted
    simp [lvgl_tab5_start, hinit, hstarted]

/-- Claim C8 witness: the amended theorem applied at a NULL handle and at an
uninitialized handle. -/
theorem C8_witness :
    lvgl_tab5_start
        { displayStart := EspErr.ok, touchStart := EspErr.ok, timerStart := EspErr.ok,
          taskCreateOk := true } none
      = (EspErr.invalidState, none) ∧
    lvgl_tab5_start
        { displayStart := EspErr.ok, touchStart := EspErr.ok, timerStart := EspErr.ok,
          taskCreateOk := true }
        (some { ctx_initialized := false, started := false })
      = (EspErr.invalidState, some { ctx_initialized := false, started := false }) :=
  ⟨(C8_amended _ none).1 rfl,
   (C8_amended _ (some { ctx_initialized := false, started := false })).2.1 _ rfl rfl⟩

/-- Claim C9: for every valid subsystem id, tab5duino_deinit_subsystem returns
ESP_OK; it is a no-op on an already-UNINITIALIZED subsystem, otherwise it
unconditionally sets the state to UNINITIALIZED; and no call puts any
subsystem into ERROR that was not already in ERROR. -/
theorem C9_deinit_subsystem_spec (n : Nat) (s : TabInstance) (h : n < 8) :
    (tab5duino_deinit_subsystem n s).1 = EspErr.ok ∧
    tab5duino_get_subsystem_state n (tab5duino_deinit_subsystem n s).2.1
      = SubsystemState.uninitialized ∧
    (s.subsystem_states ⟨n, h⟩ = SubsystemState.uninitialized →
      tab5duino_deinit_subsystem n s = (EspErr.ok, s, [])) ∧
    (∀ m : Fin 8, (tab5duino_deinit_subsystem n s).2.1.subsystem_states m
        = SubsystemState.error → s.subsystem_states m = SubsystemState.error) := by
  by_cases hs : s.subsystem_states ⟨n, h⟩ = SubsystemState.uninitialized
  · rw [deinit_subsystem_noop n h s hs]
    refine ⟨rfl, ?_, fun _ => rfl, fun m hm => hm⟩
    simp only [tab5duino_get_subsystem_state, dif_pos h]
    exact hs
  · rw [deinit_subsystem_active n h s hs]
    refine ⟨rfl, ?_, fun hu => absurd hu hs, ?_⟩
    · simp only [tab5duino_get_subsystem_state, dif_pos h]
      simp [Function.update_same]
    · intro m hm
      by_cases hmn : m = (⟨n, h⟩ : Fin 8)
      · rw [hmn] at hm
        simp [Function.update_same] at hm
      · simpa [Function.update_noteq hmn] using hm

/-- Claim C9 witness: the theorem applied to subsystem 1 of an instance whose
touch subsystem is READY. -/
theorem C9_witness :
    (tab5duino_deinit_subsystem 1 touchReadyInstance).1 = EspErr.ok ∧
    tab5duino_get_subsystem_state 1 (tab5duino_deinit_subsystem 1 touchReadyInstance).2.1
      = SubsystemState.uninitialized :=
  ⟨(C9_deinit_subsystem_spec 1 touchReadyInstance (by decide)).1,
   (C9_deinit_subsystem_spec 1 touchReadyInstance (by decide)).2.1⟩

/-- Claim C10: tab5duino_get_subsystem_state returns TAB5_SUBSYSTEM_ERROR for
every out-of-range subsystem id (id at least 8) rather than an error status
or an out-of-bounds read, and returns the stored state unchanged for every
valid id. -/
theorem C10_get_subsystem_state_spec (n : Nat) (s : TabInstance) :
    (8 ≤ n → tab5duino_get_subsystem_state n s = SubsystemState.error) ∧
    (∀ h : n < 8, tab5duino_get_subsystem_state n s = s.subsystem_states ⟨n, h⟩) := by
  constructor
  · intro h
    simp only [tab5duino_get_subsystem_state, dif_neg (by omega : ¬ n < 8)]
  · intro h
    simp only [tab5duino_get_subsystem_state, dif_pos h]

/-- Claim C10 witness: the theorem applied at the out-of-range id 9 and at the
valid id 1. -/
theorem C10_witness :
    tab5duino_get_subsystem_state 9 zeroInstance = SubsystemState.error ∧
    tab5duino_get_subsystem_state 1 touchReadyInstance
      = touchReadyInstance.subsystem_states ⟨1, by decide⟩ :=
  ⟨(C10_get_subsystem_state_spec 9 zeroInstance).1 (by decide),
   (C10_get_subsystem_state_spec 1 touchReadyInstance).2 (by decide)⟩
